import Mathlib

/-!
Verification of `webcat_web/src/request.rs`.

The module is shallowly embedded: Rust strings (`str`) become lists of
characters, `std::time::Duration` becomes a pair of naturals, and the two
external collaborators — the URL parser of the `reqwest`/`url` crate and the
blocking HTTP transport — become function parameters, since they are opaque
third-party dependencies of the component under verification.  Fallible Rust
functions returning `Result` become Lean functions returning `Except`.

`Request.sendEvents` is `Request::send` instrumented with the list of
externally observable effects it performs, in source order: creating the
transport client and dispatching the built request (method, parsed URL,
configured timeout) over the network.  A parse failure returns before either
event, exactly as the `?` on `parse_url` in the source returns before
`Client::new()` is reached.
-/

namespace Webcat

/-- Rust `str`, modelled as its sequence of characters. -/
abbrev Str := List Char

/-- Character sequence of a Lean string literal. -/
def str (s : String) : Str := s.data

/-- Rust `str::starts_with`: exact, case-sensitive prefix match on the
character sequence. -/
def starts_with (s pre : Str) : Bool := List.isPrefixOf pre s

/-- Rust `std::time::Duration` (whole seconds plus nanoseconds). -/
structure Duration where
  secs : Nat
  nanos : Nat
  deriving DecidableEq

/-- `reqwest::Url`: an opaque value produced by the external URL parser.
The component never inspects it, only passes it to the transport. -/
structure Url where
  raw : Str
  deriving DecidableEq

/-- The external URL parser `reqwest::Url::parse` (the `url` crate), an
opaque dependency: on failure it yields its diagnostic message. -/
abbrev UrlParse := Str → Except Str Url

/-- `reqwest::Method`, restricted to the two variants the source maps to. -/
inductive ReqwestMethod where
  | GET
  | POST
  deriving DecidableEq

/-- The `RequestMethod` enum of `request.rs`. -/
inductive RequestMethod where
  | GET
  | POST
  deriving DecidableEq

/-- The `RequestError` enum of `request.rs`. -/
inductive RequestError where
  | ConnectionFailed (msg : Str)
  | InvalidConfiguration (msg : Str)
  deriving DecidableEq

/-- The raw response of the external transport (`reqwest::blocking::Response`):
a numeric HTTP status code and a body. -/
structure ReqwestResponse where
  status : Nat
  body : Str
  deriving DecidableEq

/-- Modelled from the spec: the crate's `Response` type (`super::Response`,
defined outside `src/request.rs`), which per §3/§6 of the spec exposes a
numeric status code and a decoded text body. -/
structure Response where
  status_code : Nat
  text : Str
  deriving DecidableEq

/-- Modelled from the spec: `Response::from_reqwest` (outside
`src/request.rs`); per §6 it "must preserve status code and allow retrieval
of the decoded body as text". -/
def Response.from_reqwest (r : ReqwestResponse) : Response :=
  { status_code := r.status, text := r.body }

/-- The external blocking HTTP transport: given the built request (method,
absolute URL, optional per-request timeout — `none` leaves the transport's
own default in effect) it returns a completed raw response or a transport
error's diagnostic message. -/
abbrev Transport := ReqwestMethod → Url → Option Duration → Except Str ReqwestResponse

/-- `RequestResult` of `request.rs`. -/
abbrev RequestResult := Except RequestError Response

/-- The `Request` builder of `request.rs`: holds only the optional timeout. -/
structure Request where
  timeout : Option Duration
  deriving DecidableEq

/-- `Request::new`. -/
def Request.new : Request := { timeout := none }

/-- `Request::with_timeout`. -/
def Request.with_timeout (self : Request) (duration : Duration) : Request :=
  { self with timeout := some duration }

/-- `Request::parse_url`, with the external parser as a parameter. -/
def Request.parse_url (Url_parse : UrlParse) (url : Str) : Except RequestError Url :=
  let url :=
    if !(starts_with url (str "http://") || starts_with url (str "https://")) then
      Url_parse (str "http://" ++ url)
    else
      Url_parse url
  url.mapError RequestError.InvalidConfiguration

/-- The match on `method` in `Request::send` mapping `RequestMethod` to
`reqwest::Method`. -/
def toReqwestMethod : RequestMethod → ReqwestMethod
  | .GET => .GET
  | .POST => .POST

/-- Externally observable effects of a `send` call, in source order. -/
inductive Event where
  | clientCreated
  | dispatched (method : ReqwestMethod) (url : Url) (timeout : Option Duration)
  deriving DecidableEq

/-- `Request::send` instrumented with its effect trace.  The structure
mirrors the source line by line: `parse_url` first (its error propagates via
the result, with an empty trace), then the client is created, the request is
built from the method, URL and the stored timeout, dispatched, and the
outcome is wrapped (`ConnectionFailed` on transport error, `Ok` otherwise). -/
def Request.sendEvents (Url_parse : UrlParse) (transport : Transport) (self : Request)
    (method : RequestMethod) (url : Str) : RequestResult × List Event :=
  match Request.parse_url Url_parse url with
  | .error e => (.error e, [])
  | .ok url =>
    let method := toReqwestMethod method
    let events := [Event.clientCreated, Event.dispatched method url self.timeout]
    match transport method url self.timeout with
    | .error err => (.error (RequestError.ConnectionFailed err), events)
    | .ok response => (.ok (Response.from_reqwest response), events)

/-- `Request::send`: the result of the instrumented run. -/
def Request.send (Url_parse : UrlParse) (transport : Transport) (self : Request)
    (method : RequestMethod) (url : Str) : RequestResult :=
  (Request.sendEvents Url_parse transport self method url).1

/-- State-passing form of `Request::send`: the method takes the receiver by
shared reference (`&self` in the source), so it returns the borrowed builder
unchanged alongside the result. -/
def Request.sendSt (Url_parse : UrlParse) (transport : Transport) (self : Request)
    (method : RequestMethod) (url : Str) : Request × RequestResult :=
  (self, Request.send Url_parse transport self method url)

/-- The `Display` impl for `RequestError`. -/
def RequestError.fmt : RequestError → Str
  | .ConnectionFailed msg => str "connection error: " ++ msg
  | .InvalidConfiguration msg => str "invalid request: " ++ msg

/-- The string actually handed to the external parser by `parse_url`:
the target with `http://` prepended when no scheme prefix is present. -/
def normalizeTarget (url : Str) : Str :=
  if !(starts_with url (str "http://") || starts_with url (str "https://")) then
    str "http://" ++ url
  else
    url

/-- A parser double that accepts every string (wraps it as the URL). -/
def okParse : UrlParse := fun s => .ok { raw := s }

/-- A parser double that rejects every string with a port-range message. -/
def portRangeParse : UrlParse := fun _ => .error (str "invalid port number")

/-- A transport double that fails every dispatch with a refusal message. -/
def refusedTransport : Transport := fun _ _ _ => .error (str "connection refused")

/-- A transport double that completes every dispatch with a fixed response. -/
def fixedTransport (resp : ReqwestResponse) : Transport := fun _ _ _ => .ok resp

theorem starts_with_append (pre t : Str) : starts_with (pre ++ t) pre = true := by
  unfold starts_with
  induction pre with
  | nil => simp [List.isPrefixOf]
  | cons c cs ih => simp [List.isPrefixOf, ih]

theorem parse_url_eq_normalize (p : UrlParse) (t : Str) :
    Request.parse_url p t = (p (normalizeTarget t)).mapError RequestError.InvalidConfiguration := by
  unfold Request.parse_url normalizeTarget
  cases starts_with t (str "http://") || starts_with t (str "https://") <;> rfl

/-- C1: when the external URL parser rejects the (scheme-defaulted) target
with message `msg`, `send` returns `Err(InvalidConfiguration(msg))`, its
effect trace is empty (no transport client is created, nothing is
dispatched), and the outcome is independent of the transport. -/
theorem send_parse_failure_no_network (p : UrlParse) (tp tp2 : Transport) (r : Request)
    (m : RequestMethod) (t msg : Str)
    (h : p (normalizeTarget t) = .error msg) :
    Request.sendEvents p tp r m t
      = (.error (RequestError.InvalidConfiguration msg), ([] : List Event))
    ∧ Request.sendEvents p tp2 r m t = Request.sendEvents p tp r m t := by
  have hp : Request.parse_url p t = .error (RequestError.InvalidConfiguration msg) := by
    rw [parse_url_eq_normalize, h]
    rfl
  constructor
  · unfold Request.sendEvents
    rw [hp]
  · unfold Request.sendEvents
    rw [hp]

/-- Witness for C1: a parser double rejecting an out-of-range port, at the
concrete target of the repository's own test. -/
theorem send_parse_failure_no_network_w :
    Request.sendEvents portRangeParse refusedTransport Request.new RequestMethod.GET
        (str "http://127.0.0.1:99999")
      = (.error (RequestError.InvalidConfiguration (str "invalid port number")),
         ([] : List Event)) :=
  (send_parse_failure_no_network portRangeParse refusedTransport
    (fixedTransport { status := 200, body := str "ok" }) Request.new RequestMethod.GET
    (str "http://127.0.0.1:99999") (str "invalid port number") rfl).1

/-- C2: scheme-defaulting law — for a target without the `http://` or
`https://` prefix, `send` behaves identically (result and effect trace) to
`send` on the target with `http://` prepended; and a target that already
carries one of the two prefixes is handed to the parser unchanged. -/
theorem scheme_defaulting_law (p : UrlParse) (tp : Transport) (r : Request)
    (m : RequestMethod) (t u : Str)
    (h : (starts_with t (str "http://") || starts_with t (str "https://")) = false)
    (hu : (starts_with u (str "http://") || starts_with u (str "https://")) = true) :
    Request.sendEvents p tp r m t = Request.sendEvents p tp r m (str "http://" ++ t)
    ∧ Request.parse_url p u = (p u).mapError RequestError.InvalidConfiguration := by
  have h1 : normalizeTarget t = str "http://" ++ t := by
    unfold normalizeTarget
    rw [h]
    rfl
  have h2 : normalizeTarget (str "http://" ++ t) = str "http://" ++ t := by
    unfold normalizeTarget
    rw [starts_with_append]
    rfl
  have hparse : Request.parse_url p t = Request.parse_url p (str "http://" ++ t) := by
    rw [parse_url_eq_normalize, parse_url_eq_normalize, h1, h2]
  constructor
  · unfold Request.sendEvents
    rw [hparse]
  · have hn : normalizeTarget u = u := by
      unfold normalizeTarget
      rw [hu]
      rfl
    rw [parse_url_eq_normalize, hn]

/-- Witness for C2 at the concrete scheme-less target `localhost:8080`. -/
theorem scheme_defaulting_law_w :
    Request.sendEvents okParse refusedTransport Request.new RequestMethod.GET
        (str "localhost:8080")
      = Request.sendEvents okParse refusedTransport Request.new RequestMethod.GET
          (str "http://" ++ str "localhost:8080") :=
  (scheme_defaulting_law okParse refusedTransport Request.new RequestMethod.GET
    (str "localhost:8080") (str "https://example.com") (by decide) (by decide)).1

/-- C3: when the target parses and the transport's blocking dispatch fails
with message `msg`, `send` returns `Err(ConnectionFailed(msg))`; and every
`send` call returns exactly one response or exactly one error — never both,
never neither. -/
theorem transport_failure_classification (p : UrlParse) (tp : Transport) (r : Request)
    (m : RequestMethod) (t : Str) (u : Url) (msg : Str)
    (hp : Request.parse_url p t = .ok u)
    (ht : tp (toReqwestMethod m) u r.timeout = .error msg) :
    Request.send p tp r m t = .error (RequestError.ConnectionFailed msg)
    ∧ ∀ (p2 : UrlParse) (tp2 : Transport) (r2 : Request) (m2 : RequestMethod) (t2 : Str),
        ((∃ resp, Request.send p2 tp2 r2 m2 t2 = .ok resp)
          ∨ (∃ e, Request.send p2 tp2 r2 m2 t2 = .error e))
        ∧ ¬((∃ resp, Request.send p2 tp2 r2 m2 t2 = .ok resp)
          ∧ (∃ e, Request.send p2 tp2 r2 m2 t2 = .error e)) := by
  constructor
  · unfold Request.send Request.sendEvents
    rw [hp]
    simp only [ht]
  · intro p2 tp2 r2 m2 t2
    cases hs : Request.send p2 tp2 r2 m2 t2 with
    | error e =>
      refine ⟨Or.inr ⟨e, rfl⟩, ?_⟩
      rintro ⟨⟨resp, hresp⟩, -⟩
      exact Except.noConfusion hresp
    | ok resp =>
      refine ⟨Or.inl ⟨resp, rfl⟩, ?_⟩
      rintro ⟨-, ⟨e, he⟩⟩
      exact Except.noConfusion he

/-- Witness for C3: an accepting parser with a refusing transport at a
concrete target. -/
theorem transport_failure_classification_w :
    Request.send okParse refusedTransport Request.new RequestMethod.GET
        (str "http://127.0.0.1:753")
      = .error (RequestError.ConnectionFailed (str "connection refused")) :=
  (transport_failure_classification okParse refusedTransport Request.new RequestMethod.GET
    (str "http://127.0.0.1:753") { raw := str "http://127.0.0.1:753" }
    (str "connection refused") rfl rfl).1

/-- C4: when the transport completes with a raw response, `send` returns
`Ok` with that response wrapped into `Response`, whatever the HTTP status
code; the wrapping preserves the status code and body. -/
theorem ok_response_passthrough (p : UrlParse) (tp : Transport) (r : Request)
    (m : RequestMethod) (t : Str) (u : Url) (resp : ReqwestResponse)
    (hp : Request.parse_url p t = .ok u)
    (ht : tp (toReqwestMethod m) u r.timeout = .ok resp) :
    Request.send p tp r m t = .ok (Response.from_reqwest resp)
    ∧ (Response.from_reqwest resp).status_code = resp.status
    ∧ (Response.from_reqwest resp).text = resp.body := by
  refine ⟨?_, rfl, rfl⟩
  unfold Request.send Request.sendEvents
  rw [hp]
  simp only [ht]

/-- Witness for C4: a transport double answering 404 still yields `Ok` with
status code 404. -/
theorem ok_response_passthrough_w :
    Request.send okParse (fixedTransport { status := 404, body := str "not found" })
        Request.new RequestMethod.GET (str "http://example.com/missing")
      = .ok { status_code := 404, text := str "not found" } :=
  (ok_response_passthrough okParse
    (fixedTransport { status := 404, body := str "not found" }) Request.new
    RequestMethod.GET (str "http://example.com/missing")
    { raw := str "http://example.com/missing" } { status := 404, body := str "not found" }
    rfl rfl).1

/-- C5: `with_timeout` overwrites — chaining two calls yields the same
builder state as the last call alone, the stored timeout is the last-set
value, and a subsequent `send` sees only that value. -/
theorem with_timeout_overwrites (b : Request) (d1 d2 : Duration) (p : UrlParse)
    (tp : Transport) (m : RequestMethod) (t : Str) :
    (b.with_timeout d1).with_timeout d2 = b.with_timeout d2
    ∧ ((b.with_timeout d1).with_timeout d2).timeout = some d2
    ∧ Request.send p tp ((b.with_timeout d1).with_timeout d2) m t
        = Request.send p tp (b.with_timeout d2) m t :=
  ⟨rfl, rfl, rfl⟩

/-- C6: `new()` stores no timeout, and a `send` on such a builder dispatches
the request with no per-request timeout (`none`, the transport default). -/
theorem new_has_no_timeout (p : UrlParse) (tp : Transport) (m : RequestMethod)
    (t : Str) (u : Url)
    (hp : Request.parse_url p t = .ok u) :
    Request.new.timeout = none
    ∧ (Request.sendEvents p tp Request.new m t).2
        = [Event.clientCreated, Event.dispatched (toReqwestMethod m) u none] := by
  refine ⟨rfl, ?_⟩
  cases h2 : tp (toReqwestMethod m) u none <;>
    simp [Request.sendEvents, Request.new, hp, h2]

/-- Witness for C6 at the concrete scheme-less target `example.com`. -/
theorem new_has_no_timeout_w :
    (Request.sendEvents okParse refusedTransport Request.new RequestMethod.GET
        (str "example.com")).2
      = [Event.clientCreated,
         Event.dispatched (toReqwestMethod RequestMethod.GET)
           { raw := str "http://example.com" } none] :=
  (new_has_no_timeout okParse refusedTransport RequestMethod.GET (str "example.com")
    { raw := str "http://example.com" } rfl).2

/-- C7: `send` takes the builder by shared reference and leaves its
configuration unchanged — the state-passing form returns the builder as it
was, and a second `send` through that returned builder has the same
effective configuration and result. -/
theorem send_leaves_builder_unchanged (p : UrlParse) (tp : Transport) (r : Request)
    (m : RequestMethod) (t : Str) :
    (Request.sendSt p tp r m t).1 = r
    ∧ Request.sendSt p tp (Request.sendSt p tp r m t).1 m t
        = Request.sendSt p tp r m t :=
  ⟨rfl, rfl⟩

/-- C8: parse outcome and error classification depend only on the target
string — any two runs (distinct builders, methods, transports) on the same
target either both fail with the same `InvalidConfiguration` message, or
both dispatch the same parsed URL. -/
theorem parse_deterministic (p : UrlParse) (t : Str) (r1 r2 : Request)
    (m1 m2 : RequestMethod) (tp1 tp2 : Transport) :
    (∃ msg, Request.send p tp1 r1 m1 t = .error (RequestError.InvalidConfiguration msg)
          ∧ Request.send p tp2 r2 m2 t = .error (RequestError.InvalidConfiguration msg))
    ∨ (∃ u, Request.parse_url p t = .ok u
          ∧ (Request.sendEvents p tp1 r1 m1 t).2
              = [Event.clientCreated, Event.dispatched (toReqwestMethod m1) u r1.timeout]
          ∧ (Request.sendEvents p tp2 r2 m2 t).2
              = [Event.clientCreated, Event.dispatched (toReqwestMethod m2) u r2.timeout]) := by
  cases hp : p (normalizeTarget t) with
  | error msg =>
    left
    have h1 : Request.parse_url p t = .error (RequestError.InvalidConfiguration msg) := by
      rw [parse_url_eq_normalize, hp]
      rfl
    refine ⟨msg, ?_, ?_⟩ <;>
      · unfold Request.send Request.sendEvents
        rw [h1]
  | ok u =>
    right
    have h1 : Request.parse_url p t = .ok u := by
      rw [parse_url_eq_normalize, hp]
      rfl
    refine ⟨u, h1, ?_, ?_⟩
    · cases h2 : tp1 (toReqwestMethod m1) u r1.timeout <;>
        simp [Request.sendEvents, h1, h2]
    · cases h2 : tp2 (toReqwestMethod m2) u r2.timeout <;>
        simp [Request.sendEvents, h1, h2]

/-- C9: the scheme-prefix test is an exact, case-sensitive match — targets
such as `HTTP://example.com` or `ftp://example.com` do not count as having a
scheme prefix and are handed to the parser with `http://` prepended rather
than being parsed with their original spelling. -/
theorem scheme_test_case_sensitive (p : UrlParse) :
    starts_with (str "HTTP://example.com") (str "http://") = false
    ∧ starts_with (str "ftp://example.com") (str "http://") = false
    ∧ starts_with (str "ftp://example.com") (str "https://") = false
    ∧ Request.parse_url p (str "HTTP://example.com")
        = (p (str "http://" ++ str "HTTP://example.com")).mapError
            RequestError.InvalidConfiguration
    ∧ Request.parse_url p (str "ftp://example.com")
        = (p (str "http://" ++ str "ftp://example.com")).mapError
            RequestError.InvalidConfiguration := by
  refine ⟨by decide, by decide, by decide, ?_, ?_⟩ <;> rfl

/-- C10: the `Display` rendering of `RequestError` is the fixed prefix
`connection error: ` followed by the carried message for `ConnectionFailed`,
and `invalid request: ` followed by the carried message for
`InvalidConfiguration`. -/
theorem display_rendering (msg : Str) :
    RequestError.fmt (RequestError.ConnectionFailed msg) = str "connection error: " ++ msg
    ∧ RequestError.fmt (RequestError.InvalidConfiguration msg)
        = str "invalid request: " ++ msg :=
  ⟨rfl, rfl⟩

end Webcat
